import Mathlib

/-!
Verification development for the chess_downloader repository
(src/teacher_gui.py and src/chess_simple.py).

The Python code is shallowly embedded: Python strings are `List Char`
(`LStr`), Python dicts of students are insertion-ordered association
lists, datetimes are epoch seconds (`Int`), network responses are given
by explicit oracle values, and Python exceptions are `Except` errors.
Character-level predicates (`\s`, `\w`, `str.lower`) are modelled with
their ASCII semantics, which coincide with Python's on the inputs the
development evaluates.
-/

namespace ChessDL

/-- Python strings are modelled as lists of characters. -/
abbrev LStr := List Char

/-- ASCII model of the regex class `\s` / `str.split()` whitespace. -/
def pyIsSpace (c : Char) : Bool :=
  c = ' ' || c = '\t' || c = '\n' || c = '\r'

/-- Model of `str.lower()` (ASCII case folding; identity on CJK text). -/
def pyLower (l : LStr) : LStr := l.map Char.toLower

/-- Model of `str.strip()`: drop leading and trailing whitespace. -/
def pyStrip (l : LStr) : LStr :=
  ((l.dropWhile pyIsSpace).reverse.dropWhile pyIsSpace).reverse

/-- teacher_gui.py:67-71 `sanitize_username`: strip, then delete every
whitespace character (`re.sub(r"\s+", "", ...)`). -/
def sanitize_username (u : LStr) : LStr :=
  (pyStrip u).filter (fun c => !(pyIsSpace c))

/-- Boolean prefix test used by `isSub` (model of Python `in`). -/
def isSubAt : LStr → LStr → Bool
  | [], _ => true
  | _ :: _, [] => false
  | a :: as, b :: bs => a = b && isSubAt as bs

/-- Model of Python substring membership `a in b` (contiguous; the empty
string is a substring of everything). -/
def isSub (a : LStr) : LStr → Bool
  | [] => a.isEmpty
  | b :: bs => isSubAt a (b :: bs) || isSub a bs

/-- Accumulator worker for `pySplitWs` (current word held reversed). -/
def pySplitWsAux : LStr → LStr → List LStr
  | [], acc => if acc = [] then [] else [acc.reverse]
  | c :: rest, acc =>
    if pyIsSpace c then
      if acc = [] then pySplitWsAux rest []
      else acc.reverse :: pySplitWsAux rest []
    else pySplitWsAux rest (c :: acc)

/-- Model of `str.split()`: split on whitespace runs, dropping empties. -/
def pySplitWs (l : LStr) : List LStr := pySplitWsAux l []

/-- ASCII model of the regex class `\w` (word characters, underscore kept). -/
def isWordChar (c : Char) : Bool := c.isAlphanum || c = '_'

/-- Model of `re.sub(r"[^\w]", "", s)`: keep only word characters. -/
def cleanW (l : LStr) : LStr := l.filter isWordChar

/-- First-match option choice (Python `return` inside sequential loops). -/
def orO {α : Type} (a b : Option α) : Option α :=
  match a with
  | some x => some x
  | none => b

/-- Python dict lookup (`students[name]`, `name in students`,
`archive_cache[url]`) over an insertion-ordered association list. -/
def lookupKey {β : Type} (k : LStr) : List (LStr × β) → Option β
  | [] => none
  | (n, u) :: rest => if n = k then some u else lookupKey k rest

/-- A `for real_name, username in students.items()` loop that returns the
first username whose name satisfies the predicate. -/
def firstMatch (p : LStr → Bool) : List (LStr × LStr) → Option LStr
  | [] => none
  | (rn, u) :: rest => if p rn then some u else firstMatch p rest

/-- First whitespace-delimited word of the lower-cased string, or the whole
lower-cased string when there is none (tier-5 helper in both files). -/
def firstWordLower (s : LStr) : LStr :=
  match pySplitWs (pyLower s) with
  | [] => pyLower s
  | w :: _ => w

/-- Words of length > 1 of the lower-cased string (tier-6 helper). -/
def wordsGt1 (s : LStr) : List LStr :=
  (pySplitWs (pyLower s)).filter (fun w => 1 < w.length)

/-- Tier 1 (teacher_gui.py:632, chess_simple.py:941): exact dict lookup. -/
def tier1 (students : List (LStr × LStr)) (name : LStr) : Option LStr :=
  lookupKey name students

/-- Tier 2 (teacher_gui.py:635-637, chess_simple.py:945-947):
case-insensitive exact match. -/
def tier2 (students : List (LStr × LStr)) (name : LStr) : Option LStr :=
  firstMatch (fun rn => decide (pyLower rn = pyLower name)) students

/-- Tier 3 (teacher_gui.py:638-640, chess_simple.py:950-952): lower-cased
token contained in lower-cased real name. -/
def tier3 (students : List (LStr × LStr)) (name : LStr) : Option LStr :=
  firstMatch (fun rn => isSub (pyLower name) (pyLower rn)) students

/-- Tier 4 (teacher_gui.py:641-643, chess_simple.py:955-957): lower-cased
real name contained in lower-cased token. -/
def tier4 (students : List (LStr × LStr)) (name : LStr) : Option LStr :=
  firstMatch (fun rn => isSub (pyLower rn) (pyLower name)) students

/-- Tier 5 (teacher_gui.py:644-649, chess_simple.py:960-964): first-word
match, guarded by word length > 1. -/
def tier5 (students : List (LStr × LStr)) (name : LStr) : Option LStr :=
  firstMatch
    (fun rn =>
      decide (firstWordLower name = firstWordLower rn) &&
        decide (1 < (firstWordLower name).length))
    students

/-- Tier 6 (teacher_gui.py:650-654, chess_simple.py:967-973): any
length->1 word of the token equals any such word of the real name. -/
def tier6 (students : List (LStr × LStr)) (name : LStr) : Option LStr :=
  firstMatch
    (fun rn => (wordsGt1 name).any (fun w => (wordsGt1 rn).any (fun v => decide (w = v))))
    students

/-- Tiers 1-6 chained in source order (identical in both files). -/
def tiers1to6 (students : List (LStr × LStr)) (name : LStr) : Option LStr :=
  orO (tier1 students name)
    (orO (tier2 students name)
      (orO (tier3 students name)
        (orO (tier4 students name)
          (orO (tier5 students name) (tier6 students name)))))

/-- Tier 7 of teacher_gui.py:655-658: punctuation-normalized comparison,
equality only (`if clean and clean == re.sub(r"[^\w]", "", real.lower())`). -/
def tier7gui (students : List (LStr × LStr)) (name : LStr) : Option LStr :=
  firstMatch
    (fun rn =>
      decide (cleanW (pyLower name) ≠ []) &&
        decide (cleanW (pyLower name) = cleanW (pyLower rn)))
    students

/-- The comparison rule of chess_simple.py:979-984 on two already
normalized strings: equal, or one contains the other and the absolute
length difference is at most 2. -/
def fuzzyRule (a b : LStr) : Bool :=
  decide (a = b) ||
    ((isSub a b || isSub b a) &&
      decide (((a.length : Int) - (b.length : Int)).natAbs ≤ 2))

/-- Tier 7 of chess_simple.py:975-984: punctuation-normalized comparison;
equality, or containment with absolute length difference at most 2. -/
def tier7simple (students : List (LStr × LStr)) (name : LStr) : Option LStr :=
  firstMatch (fun rn => fuzzyRule (cleanW (pyLower name)) (cleanW (pyLower rn))) students

/-- teacher_gui.py:628-659 `find_username`. `none` models the sentinel
return value `"未找到"` (not found). -/
def find_username_gui (students : List (LStr × LStr)) (name0 : LStr) : Option LStr :=
  if name0 = [] then none
  else
    orO (tiers1to6 students (pyStrip name0)) (tier7gui students (pyStrip name0))

/-- chess_simple.py:933-986 `find_username` (extra empty-roster guard and
the containment clause in tier 7). -/
def find_username_simple (students : List (LStr × LStr)) (name0 : LStr) : Option LStr :=
  if name0 = [] ∨ students = [] then none
  else
    orO (tiers1to6 students (pyStrip name0)) (tier7simple students (pyStrip name0))

/-- Follows the spec's words (§4.4 tier 7, claim C3): strip all
non-alphanumeric characters from both strings, lower-case; match if the
results are equal, or one contains the other and the absolute length
difference is at most 2. Stated for comparison with the source's tier-7
code, which uses `\w` (keeping underscores) and, in teacher_gui.py, has
no containment clause at all. -/
def specTier7Match (tok rn : LStr) : Bool :=
  fuzzyRule ((pyLower tok).filter Char.isAlphanum) ((pyLower rn).filter Char.isAlphanum)

/-!
Pairing extraction (teacher_gui.py:591-626 `parse_pairings_content` /
`_extract_pairing`; the pattern list of chess_simple.py:903-931 is
identical).  Each of the five regular expressions has the shape
`(.+?) SEP (.+?) TAIL`: a match, when one exists anywhere in the line,
also exists starting at position 0 (the lazy `.+?` absorbs any prefix),
so `re.search` returns the match with the shortest group 1. The helpers
below reproduce the backtracking order: group 1 lazily from the shortest
prefix, each greedy `\s+`/`\s*` from the longest run downwards, group 2
lazily up to the first following whitespace or the end of the line. -/

/-- Length of the leading whitespace run. -/
def leadingWs (t : LStr) : Nat := (t.takeWhile pyIsSpace).length

/-- Candidate lengths for a greedy `\s+`: maximal run first, down to 1. -/
def wsLens (t : LStr) : List Nat :=
  (List.range (leadingWs t)).map (fun i => leadingWs t - i)

/-- Candidate lengths for a greedy `\s*`: maximal run first, down to 0. -/
def wsLens0 (t : LStr) : List Nat :=
  (List.range (leadingWs t + 1)).map (fun i => leadingWs t - i)

/-- Candidate lengths for the lazy group 1: 1 upwards. -/
def g1Lens (n : Nat) : List Nat := (List.range n).map (fun i => i + 1)

/-- First success over a list of candidates (backtracking order). -/
def firstSome {α β : Type} (xs : List α) (f : α → Option β) : Option β :=
  match xs with
  | [] => none
  | a :: as =>
    match f a with
    | some b => some b
    | none => firstSome as f

/-- The lazy `(.+?)(?:\s|$)` tail: shortest non-empty prefix of `u` that
is followed by whitespace or by the end of the line. -/
def lazyG2 : LStr → Option LStr
  | [] => none
  | c :: rest => some (c :: rest.takeWhile (fun x => !(pyIsSpace x)))

/-- Tail matcher for `\s+ C \s+ (.+?)(?:\s|$)` where `C` is a
one-character class (patterns 1-3 of `_extract_pairing`). -/
def tailSep (cls : Char → Bool) (t : LStr) : Option LStr :=
  firstSome (wsLens t) (fun l1 =>
    match t.drop l1 with
    | [] => none
    | c :: rest =>
      if cls c then firstSome (wsLens rest) (fun l2 => lazyG2 (rest.drop l2))
      else none)

/-- Tail matcher for `\s*[:：]\s*(.+?)(?:\s|$)` (pattern 4). -/
def tailColon (t : LStr) : Option LStr :=
  firstSome (wsLens0 t) (fun l1 =>
    match t.drop l1 with
    | [] => none
    | c :: rest =>
      if c = ':' || c = '：' then
        firstSome (wsLens0 rest) (fun l2 => lazyG2 (rest.drop l2))
      else none)

/-- `re.search` for `(.+?) <tail>`: shortest group 1, then the tail. -/
def matchWithTail (tail : LStr → Option LStr) (line : LStr) : Option (LStr × LStr) :=
  firstSome (g1Lens line.length) (fun i =>
    match tail (line.drop i) with
    | some g2 => some (line.take i, g2)
    | none => none)

/-- Pattern 5, `^(.+?)\s+(.+?)$`: shortest group 1, greedy whitespace,
group 2 extends to the end of the line. -/
def matchPat5 (line : LStr) : Option (LStr × LStr) :=
  firstSome (g1Lens line.length) (fun i =>
    firstSome (wsLens (line.drop i)) (fun l =>
      match (line.drop i).drop l with
      | [] => none
      | c :: rest => some (line.take i, c :: rest)))

/-- The character class `[vs对战VS]` with `re.IGNORECASE`: it matches one
single character, not the two-character markers. -/
def clsVs (c : Char) : Bool :=
  c.toLower = 'v' || c.toLower = 's' || c = '对' || c = '战'

/-- Python `str.isdigit` (ASCII digits). -/
def pyIsDigitStr (l : LStr) : Bool := !l.isEmpty && l.all Char.isDigit

/-- The candidate filter of `_extract_pairing`: both sides stripped,
non-empty and not purely numeric; an invalid candidate makes the loop
try the next pattern. -/
def validTokens (g : LStr × LStr) : Option (LStr × LStr) :=
  let w := pyStrip g.1
  let b := pyStrip g.2
  if w ≠ [] ∧ b ≠ [] ∧ !pyIsDigitStr w ∧ !pyIsDigitStr b then some (w, b) else none

/-- teacher_gui.py:606-626 / chess_simple.py:903-931: the ordered pattern
list, returning the first pattern that yields a valid token pair. -/
def extractTokens (line : LStr) : Option (LStr × LStr) :=
  firstSome
    [ matchWithTail (tailSep clsVs),
      matchWithTail (tailSep (fun c => c = '-')),
      matchWithTail (tailSep (fun c => c = '对')),
      matchWithTail tailColon,
      matchPat5 ]
    (fun pat =>
      match pat line with
      | some g => validTokens g
      | none => none)

/-- A parsed pairing (the dict built by `_extract_pairing`); `none` in a
username field models the `"未找到"` sentinel. -/
structure PairingRec where
  white : LStr
  black : LStr
  white_username : Option LStr
  black_username : Option LStr
deriving DecidableEq

/-- `_extract_pairing` of teacher_gui.py: token extraction plus username
resolution against the current roster. -/
def extract_pairing_gui (students : List (LStr × LStr)) (line : LStr) : Option PairingRec :=
  match extractTokens line with
  | some (w, b) =>
    some { white := w, black := b,
           white_username := find_username_gui students w,
           black_username := find_username_gui students b }
  | none => none

/-- `extract_pairing` of chess_simple.py (same patterns, resolution via
its own `find_username`). -/
def extract_pairing_simple (students : List (LStr × LStr)) (line : LStr) : Option PairingRec :=
  match extractTokens line with
  | some (w, b) =>
    some { white := w, black := b,
           white_username := find_username_simple students w,
           black_username := find_username_simple students b }
  | none => none

/-- Marker class of teacher_gui.py:597
`re.sub(r"^\s*\d+[\.、:：\)\-–—\s]*", "", line)`. -/
def isMarkerGui (c : Char) : Bool :=
  c = '.' || c = '、' || c = ':' || c = '：' || c = ')' || c = '-' ||
    c = '–' || c = '—' || pyIsSpace c

/-- Marker class of chess_simple.py:891
`re.sub(r'^\s*\d+[\.\):\-\s]*\s*', '', line)`. -/
def isMarkerSimple (c : Char) : Bool :=
  c = '.' || c = ')' || c = ':' || c = '-' || pyIsSpace c

/-- Anchored `re.sub` removing a leading list number: whitespace, at
least one digit, then marker characters; if no digit follows the leading
whitespace the line is unchanged. -/
def stripNumbering (isMarker : Char → Bool) (l : LStr) : LStr :=
  let rest := l.dropWhile pyIsSpace
  let ds := rest.takeWhile Char.isDigit
  if ds = [] then l else (rest.drop ds.length).dropWhile isMarker

/-- One line of teacher_gui.py:591-604 `parse_pairings_content`: strip,
drop the line if empty, remove numbering, strip, drop if empty, extract. -/
def parse_pairing_line_gui (students : List (LStr × LStr)) (raw : LStr) : Option PairingRec :=
  let line := pyStrip raw
  if line = [] then none
  else
    let line2 := pyStrip (stripNumbering isMarkerGui line)
    if line2 = [] then none else extract_pairing_gui students line2

/-- One line of chess_simple.py:879-901 `parse_pairings_content`. -/
def parse_pairing_line_simple (students : List (LStr × LStr)) (raw : LStr) : Option PairingRec :=
  let line := pyStrip raw
  if line = [] then none
  else
    let line2 := pyStrip (stripNumbering isMarkerSimple line)
    if line2 = [] then none else extract_pairing_simple students line2

/-!
Datetimes. `datetime` values are modelled as epoch seconds (`Int`);
`datetime` comparison corresponds to integer comparison, `timedelta(days=n)`
to `n * 86400`.  The civil-calendar conversions below are the standard
era-based algorithms, used to model `datetime.utcnow().year/month` and
`datetime.strptime` on `%Y-%m-%dT%H:%M:%SZ`-style formats.
-/

/-- Days since 1970-01-01 of the civil date (y, m, d). -/
def daysFromCivil (y : Int) (m d : Nat) : Int :=
  let y2 := if m ≤ 2 then y - 1 else y
  let era := Int.fdiv y2 400
  let yoe := y2 - era * 400
  let mp : Int := if 2 < m then (m : Int) - 3 else (m : Int) + 9
  let doy := Int.fdiv (153 * mp + 2) 5 + (d : Int) - 1
  let doe := yoe * 365 + Int.fdiv yoe 4 - Int.fdiv yoe 100 + doy
  era * 146097 + doe - 719468

/-- Civil date (y, m, d) of a day count since 1970-01-01. -/
def civilFromDays (z0 : Int) : Int × Int × Int :=
  let z := z0 + 719468
  let era := Int.fdiv z 146097
  let doe := z - era * 146097
  let yoe := Int.fdiv (doe - Int.fdiv doe 1460 + Int.fdiv doe 36524 - Int.fdiv doe 146096) 365
  let doy := doe - (365 * yoe + Int.fdiv yoe 4 - Int.fdiv yoe 100)
  let mp := Int.fdiv (5 * doy + 2) 153
  let d := doy - Int.fdiv (153 * mp + 2) 5 + 1
  let m := if mp < 10 then mp + 3 else mp - 9
  (yoe + era * 400 + (if m ≤ 2 then 1 else 0), m, d)

def isLeap (y : Nat) : Bool := (y % 4 = 0 && y % 100 ≠ 0) || y % 400 = 0

def daysInMonth (y m : Nat) : Nat :=
  if m = 2 then (if isLeap y then 29 else 28)
  else if m = 4 ∨ m = 6 ∨ m = 9 ∨ m = 11 then 30
  else 31

/-- The ranges accepted by the `datetime` constructor (seconds capped at
59, year at least 1). -/
def validDate (y mo d h mi se : Nat) : Bool :=
  1 ≤ y && y ≤ 9999 && 1 ≤ mo && mo ≤ 12 && 1 ≤ d && d ≤ daysInMonth y mo &&
    h ≤ 23 && mi ≤ 59 && se ≤ 59

def epochOf (y mo d h mi se : Nat) : Int :=
  daysFromCivil (y : Int) mo d * 86400 + (h : Int) * 3600 + (mi : Int) * 60 + (se : Int)

/-- Expect one literal character. -/
def expectChar (c : Char) : LStr → Option LStr
  | [] => none
  | x :: rest => if x = c then some rest else none

/-- Read exactly `k` ASCII digits, returning their value and the rest. -/
def readDigits : Nat → LStr → Option (Nat × LStr)
  | 0, l => some (0, l)
  | _ + 1, [] => none
  | k + 1, c :: rest =>
    if c.isDigit then
      match readDigits k rest with
      | some (v, r) => some ((c.toNat - 48) * 10 ^ k + v, r)
      | none => none
    else none

/-- `%f`: one to six fractional digits, greedily (microseconds dropped —
datetimes are modelled at second granularity). -/
def readFrac : LStr → Option LStr
  | [] => none
  | c :: rest =>
    if c.isDigit then some (rest.drop (min 5 (rest.takeWhile Char.isDigit).length))
    else none

/-- `datetime.strptime(s, fmt)` for the two formats of
teacher_gui.py:893 (`%Y-%m-%dT%H:%M:%S.%fZ` and `%Y-%m-%dT%H:%M:%SZ`),
with zero-padded two-digit fields; the whole string must be consumed and
the date must be constructible. -/
def parseFmt (withFrac : Bool) (s : LStr) : Option Int := do
  let (y, r1) ← readDigits 4 s
  let r2 ← expectChar '-' r1
  let (mo, r3) ← readDigits 2 r2
  let r4 ← expectChar '-' r3
  let (d, r5) ← readDigits 2 r4
  let r6 ← expectChar 'T' r5
  let (h, r7) ← readDigits 2 r6
  let r8 ← expectChar ':' r7
  let (mi, r9) ← readDigits 2 r8
  let r10 ← expectChar ':' r9
  let (se, r11) ← readDigits 2 r10
  let r12 ← (if withFrac then do
      let r ← expectChar '.' r11
      readFrac r
    else pure r11)
  let r13 ← expectChar 'Z' r12
  if r13.isEmpty && validDate y mo d h mi se then pure (epochOf y mo d h mi se)
  else none

/-- The `for fmt in (...)` loop of teacher_gui.py:893-897. -/
def strptimeIso (s : LStr) : Option Int :=
  orO (parseFmt true s) (parseFmt false s)

/-- A JSON scalar that can sit in a game's timestamp field. -/
inductive PyVal where
  | num (n : Int)
  | str (s : LStr)
deriving DecidableEq

/-- A game object of an archive response (teacher_gui.py reads
`white.username`, `black.username`, the four timestamp fields and `pgn`;
`none` models an absent field / JSON null). -/
structure Game where
  white : LStr
  black : LStr
  end_time : Option PyVal
  finish_time : Option PyVal
  start_time : Option PyVal
  last_activity : Option PyVal
  pgn : Option LStr
deriving DecidableEq

/-- Python truthiness of a possibly-absent JSON scalar. -/
def pyTruthyV : Option PyVal → Bool
  | none => false
  | some (.num n) => decide (n ≠ 0)
  | some (.str s) => decide (s ≠ [])

/-- Python `a or b` (value-returning, left associative). -/
def pyOrV (a b : Option PyVal) : Option PyVal := if pyTruthyV a then a else b

/-- The range on which `datetime.utcfromtimestamp` succeeds (year 1 to
year 9999); outside it the code catches the error and yields `None`. -/
def tsMin : Int := -62135596800
def tsMax : Int := 253402300799

/-- teacher_gui.py:880-898 `extract_game_time`: first truthy of the four
timestamp fields; numbers through `utcfromtimestamp`, strings through
`strptime`; anything else yields no timestamp. -/
def extract_game_time (g : Game) : Option Int :=
  match pyOrV (pyOrV (pyOrV g.end_time g.finish_time) g.start_time) g.last_activity with
  | some (.num n) => if tsMin ≤ n && n ≤ tsMax then some n else none
  | some (.str s) => strptimeIso s
  | none => none

/-- A timestamp field value the code can turn into a datetime: a numeric
epoch in range, or a string one of the two ISO formats recognizes. -/
def parsableTs : PyVal → Bool
  | .num n => tsMin ≤ n && n ≤ tsMax
  | .str s => (strptimeIso s).isSome

/-- Python two-element set equality `\x7ba, b\x7d == \x7bc, d\x7d`, written out
as mutual membership. -/
def setPairEq {α : Type} [DecidableEq α] (a b c d : α) : Bool :=
  decide ((a = c ∨ a = d) ∧ (b = c ∨ b = d) ∧ (c = a ∨ c = b) ∧ (d = a ∨ d = b))

/-- teacher_gui.py:783-785: a game is compared against the pairing by the
unordered set of its lower-cased participant usernames. -/
def participantsMatch (g : Game) (wApi bApi : LStr) : Bool :=
  setPairEq (pyLower g.white) (pyLower g.black) wApi bApi

/-- teacher_gui.py:783-790, one game of the scan loop: keep the game iff
the participant sets agree and the game is not strictly older than the
cutoff (games with no parsable timestamp are kept). -/
def keepGame (wApi bApi : LStr) (cutoff : Int) (g : Game) : Bool :=
  participantsMatch g wApi bApi &&
    (match extract_game_time g with
     | none => true
     | some t => decide (¬(t < cutoff)))

/-!
Archive client (teacher_gui.py:832-878).  An HTTP exchange is given by
an oracle value: a raised `requests.Timeout`, another raised
`requests.RequestException`, or a response with a status code and a
body.  `resp.json()` on a body that is not JSON raises (uncaught in the
source, modelled as `Except.error`), as does `data.get(...)` on a JSON
value that is not an object in `get_player_archives`.
-/

/-- Uncaught Python exceptions that the embedded code can raise. -/
inductive PyErr where
  | jsonError
  | attrError
deriving DecidableEq

/-- Outcome of one `self.http.get(...)` call, with a decoded body. -/
inductive Fetch (β : Type) where
  | timeout (msg : LStr)
  | reqErr (msg : LStr)
  | resp (status : Nat) (body : β)

/-- Body of the archive-index endpoint as seen through `resp.json()` and
`data.get("archives", [])`. -/
inductive ArchBody where
  | notJson
  | nonDict
  | dict (archives : Option (Except Unit (List LStr)))

/-- Body of an archive endpoint: `data.get("games", [])` when the JSON
is an object, `[]` otherwise; `.error ()` inside `dict` models a
`"games"` value that is not a list. -/
inductive GamesBody where
  | notJson
  | nonDict
  | dict (games : Option (Except Unit (List Game)))

def natToChars (n : Nat) : LStr := (toString n).toList

def missingUserMsg : LStr := "用户名缺失".toList
def netErrPrefix : LStr := "网络错误: ".toList
def notFoundMsg : LStr := "用户不存在或无公开棋谱".toList
def forbiddenMsg : LStr := "HTTP 403 (访问被拒绝)".toList
def httpMsg (status : Nat) : LStr := "HTTP ".toList ++ natToChars status
def timeoutMsg : LStr := "请求超时".toList
def badDataMsg : LStr := "数据格式错误".toList

/-- teacher_gui.py:832-848 `get_player_archives`.  Returns the
`(archives, reason)` pair and whether a network request was issued.
`except requests.RequestException` catches timeouts too, so both raised
cases yield the generic network-error reason. -/
def get_player_archives (net : Fetch ArchBody) (username : LStr) :
    Except PyErr ((List LStr × LStr) × Bool) :=
  if username = [] then .ok (([], missingUserMsg), false)
  else
    match net with
    | .timeout msg => .ok (([], netErrPrefix ++ msg), true)
    | .reqErr msg => .ok (([], netErrPrefix ++ msg), true)
    | .resp status body =>
      if status = 404 then .ok (([], notFoundMsg), true)
      else if status = 403 then .ok (([], forbiddenMsg), true)
      else if status ≠ 200 then .ok (([], httpMsg status), true)
      else
        match body with
        | .notJson => .error .jsonError
        | .nonDict => .error .attrError
        | .dict none => .ok (([], []), true)
        | .dict (some (.ok xs)) => .ok ((xs, []), true)
        | .dict (some (.error _)) => .ok (([], []), true)

/-- The session-wide `archive_cache` dict (url → games); insertion at
the head, lookup finds the most recent binding. -/
abbrev Cache := List (LStr × List Game)

/-- teacher_gui.py:850-868 `get_archive_games`.  Returns
`(games, reason)`, the updated cache, and whether a network request was
issued; `except requests.Timeout` comes before the generic handler, and
only 200-responses whose `games` value is a list are cached. -/
def get_archive_games (cache : Cache) (net : Fetch GamesBody) (url : LStr) :
    Except PyErr ((List Game × LStr) × Cache × Bool) :=
  match lookupKey url cache with
  | some gs => .ok ((gs, []), cache, false)
  | none =>
    match net with
    | .timeout _ => .ok (([], timeoutMsg), cache, true)
    | .reqErr msg => .ok (([], netErrPrefix ++ msg), cache, true)
    | .resp status body =>
      if status ≠ 200 then
        if status = 403 then .ok (([], forbiddenMsg), cache, true)
        else .ok (([], httpMsg status), cache, true)
      else
        match body with
        | .notJson => .error .jsonError
        | .nonDict => .ok (([], []), (url, []) :: cache, true)
        | .dict none => .ok (([], []), (url, []) :: cache, true)
        | .dict (some (.ok gs)) => .ok ((gs, []), (url, gs) :: cache, true)
        | .dict (some (.error _)) => .ok (([], badDataMsg), cache, true)

/-!
Pairing synchronizer (teacher_gui.py:747-830 `download_pairing_games`).
The ambient clock `datetime.utcnow()` and the network are supplied by a
`SyncEnv`; the list of issued network requests is returned so that
"no network activity" is a provable statement.  Filename construction
and the pacing sleeps do not affect control flow and are not modelled;
a per-game write oracle models `open(...).write` succeeding or raising
`OSError`.
-/

def recent_days : Int := 14
def archive_month_limit : Nat := 18

def invalidUserMsg : LStr := "用户名无效".toList
def noArchivesMsg : LStr := "未找到棋谱归档".toList
/-- f-string of teacher_gui.py:799 with `self.recent_days = 14`. -/
def noRecentMsg : LStr := "未找到双方在最近14天的对局".toList
def saveFailMsg : LStr := "找到对局但保存失败".toList
def savedMsg (n : Nat) : LStr := "保存 ".toList ++ natToChars n ++ " 局".toList

/-- Python `a or b` on strings (first non-empty). -/
def pyOrS (a b : LStr) : LStr := if a ≠ [] then a else b

/-- Python `xs[-n:]`. -/
def takeLast {α : Type} (n : Nat) (xs : List α) : List α :=
  xs.drop (xs.length - n)

/-- teacher_gui.py:870-878 `is_archive_recent`: if the url ends in
`/YYYY/MM`, within 2 calendar months of now; otherwise treated as
recent. -/
def is_archive_recent (now : Int) (url : LStr) : Bool :=
  match url.reverse with
  | m2 :: m1 :: s1 :: y4 :: y3 :: y2 :: y1 :: s2 :: _ =>
    if m2.isDigit && m1.isDigit && s1 = '/' &&
        y4.isDigit && y3.isDigit && y2.isDigit && y1.isDigit && s2 = '/' then
      let year : Int :=
        (((y1.toNat - 48) * 1000 + (y2.toNat - 48) * 100 +
            (y3.toNat - 48) * 10 + (y4.toNat - 48) : Nat) : Int)
      let month : Int := (((m1.toNat - 48) * 10 + (m2.toNat - 48) : Nat) : Int)
      let c := civilFromDays (Int.fdiv now 86400)
      decide ((c.1 * 12 + c.2.1) - (year * 12 + month) ≤ 2)
    else true
  | _ => true

/-- A network request issued during one pairing sync. -/
inductive NetCall where
  | archives (username : LStr)
  | archive (url : LStr)
deriving DecidableEq

/-- Ambient state for one sync: the network oracles (per username and
per archive url), the per-game file-write oracle, and the clock. -/
structure SyncEnv where
  netArch : LStr → Fetch ArchBody
  netGames : LStr → Fetch GamesBody
  writeOk : Nat → Bool
  now : Int

/-- The scan loop of teacher_gui.py:777-790 over the (already reversed)
working set: fetch each archive cache-aware, remember the last fetch
error, and collect the games `keepGame` accepts. -/
def scanArchives (env : SyncEnv) (wApi bApi : LStr) (cutoff : Int) :
    Cache → List LStr → Except PyErr (List Game × LStr × Cache × List NetCall)
  | cache, [] => .ok ([], [], cache, [])
  | cache, url :: rest =>
    match get_archive_games cache (env.netGames url) url with
    | .error e => .error e
    | .ok ((games, err), cache2, called) =>
      match scanArchives env wApi bApi cutoff cache2 rest with
      | .error e => .error e
      | .ok (matchedRest, lastErrRest, cacheF, callsRest) =>
        let callsHere := if called then [NetCall.archive url] else []
        if err ≠ [] then
          .ok (matchedRest, pyOrS lastErrRest err, cacheF, callsHere ++ callsRest)
        else
          .ok (games.filter (keepGame wApi bApi cutoff) ++ matchedRest,
            lastErrRest, cacheF, callsHere ++ callsRest)

/-- The save loop of teacher_gui.py:804-825: a game with falsy `pgn` is
skipped, a failed write (`OSError`) is skipped; `saved_any` records
whether at least one file was written. -/
def saveLoop (writeOk : Nat → Bool) : Nat → List Game → Bool
  | _, [] => false
  | i, g :: rest =>
    ((match g.pgn with | none => false | some s => decide (s ≠ [])) && writeOk i) ||
      saveLoop writeOk (i + 1) rest

/-- Steps 4-7 of `download_pairing_games` (teacher_gui.py:770-830), from
the point where a non-empty archive list has been obtained. -/
def finishPairing (env : SyncEnv) (cache : Cache) (wApi bApi : LStr)
    (archives : List LStr) (white_err black_err : LStr) (calls0 : List NetCall) :
    Except PyErr ((Bool × LStr) × Cache × List NetCall) :=
  let cutoff := env.now - recent_days * 86400
  let considered0 := archives.filter (fun u => is_archive_recent env.now u)
  let considered := if considered0 = [] then takeLast archive_month_limit archives
    else considered0
  match scanArchives env wApi bApi cutoff cache considered.reverse with
  | .error e => .error e
  | .ok (matched, last_error, cacheF, calls1) =>
    let calls := calls0 ++ calls1
    if matched = [] then
      if white_err ≠ [] ∧ archives = [] then .ok ((false, white_err), cacheF, calls)
      else if black_err ≠ [] ∧ archives = [] then .ok ((false, black_err), cacheF, calls)
      else if last_error ≠ [] then .ok ((false, last_error), cacheF, calls)
      else .ok ((false, noRecentMsg), cacheF, calls)
    else
      if saveLoop env.writeOk 1 matched then
        .ok ((true, savedMsg matched.length), cacheF, calls)
      else .ok ((false, saveFailMsg), cacheF, calls)

/-- teacher_gui.py:747-830 `download_pairing_games`: sanitize and
lower-case both usernames, reject empty ones before any network
activity, fetch the white player's archive index with the black player's
as fallback, then scan, filter and save. -/
def download_pairing_games (env : SyncEnv) (cache : Cache) (wU bU : LStr) :
    Except PyErr ((Bool × LStr) × Cache × List NetCall) :=
  let white_api := pyLower (sanitize_username wU)
  let black_api := pyLower (sanitize_username bU)
  if white_api = [] ∨ black_api = [] then .ok ((false, invalidUserMsg), cache, [])
  else
    match get_player_archives (env.netArch white_api) white_api with
    | .error e => .error e
    | .ok ((archivesW, white_err), calledW) =>
      let callsW := if calledW then [NetCall.archives white_api] else []
      if archivesW = [] then
        match get_player_archives (env.netArch black_api) black_api with
        | .error e => .error e
        | .ok ((archivesB, black_err), calledB) =>
          let calls0 := callsW ++ (if calledB then [NetCall.archives black_api] else [])
          if archivesB = [] then
            .ok ((false, pyOrS white_err (pyOrS black_err noArchivesMsg)), cache, calls0)
          else finishPairing env cache white_api black_api archivesB white_err black_err calls0
      else finishPairing env cache white_api black_api archivesW white_err [] callsW

/-!
Batch orchestration (teacher_gui.py:664-734 `download_games`,
chess_simple.py:988-1067 `download_games`).  The per-pairing body is
abstracted as `sync`, an `Except`-valued function: teacher_gui's loop
has no try/except, so a raised fault propagates and aborts the batch;
chess_simple's loop wraps its body in try/except and records the fault
as one more failed entry.  The report keeps the success count and the
ordered failure entries (1-based pairing index and detail), exactly as
the source accumulates them.
-/

def noMatchMsg : LStr := "用户名未匹配".toList
def notFoundSimpleMsg : LStr := "用户名未找到".toList
def dlFailMsg : LStr := "下载失败".toList
def errStr : PyErr → LStr
  | .jsonError => "JSONDecodeError".toList
  | .attrError => "AttributeError".toList
def errMsg (e : PyErr) : LStr := "错误: ".toList ++ errStr e

/-- The batch report (totals plus the ordered failure entries, as written
to 下载报告.txt). -/
structure Report where
  total : Nat
  success : Nat
  failed : List (Nat × LStr)
deriving DecidableEq

/-- One iteration of teacher_gui.py:679-702: `none` is a success, `some
detail` a failure entry; a fault raised by `sync` propagates. -/
def pairingStepGui (sync : Nat → PairingRec → Except PyErr (Bool × LStr))
    (i : Nat) (p : PairingRec) : Except PyErr (Option LStr) :=
  match p.white_username, p.black_username with
  | some _, some _ =>
    match sync i p with
    | .error e => .error e
    | .ok (true, _) => .ok none
    | .ok (false, d) => .ok (some d)
  | _, _ => .ok (some noMatchMsg)

/-- The fold of teacher_gui.py:679-702 (no try/except around `sync`). -/
def goGui (sync : Nat → PairingRec → Except PyErr (Bool × LStr)) :
    Nat → Nat → List (Nat × LStr) → List PairingRec →
      Except PyErr (Nat × List (Nat × LStr))
  | _, s, f, [] => .ok (s, f)
  | i, s, f, p :: rest =>
    match pairingStepGui sync i p with
    | .error e => .error e
    | .ok none => goGui sync (i + 1) (s + 1) f rest
    | .ok (some d) => goGui sync (i + 1) s (f ++ [(i, d)]) rest

/-- teacher_gui.py:664-717 `download_games` batch loop and report. -/
def download_games_gui (sync : Nat → PairingRec → Except PyErr (Bool × LStr))
    (pairings : List PairingRec) : Except PyErr Report :=
  match goGui sync 1 0 [] pairings with
  | .error e => .error e
  | .ok (s, f) => .ok { total := pairings.length, success := s, failed := f }

/-- One iteration of chess_simple.py:1003-1029: the try/except turns a
raised fault into a failure entry. -/
def pairingStepSimple (sync : Nat → PairingRec → Except PyErr Bool)
    (i : Nat) (p : PairingRec) : Option LStr :=
  match p.white_username, p.black_username with
  | some _, some _ =>
    match sync i p with
    | .error e => some (errMsg e)
    | .ok true => none
    | .ok false => some dlFailMsg
  | _, _ => some notFoundSimpleMsg

/-- The fold of chess_simple.py:1003-1029 (total, never raises). -/
def goSimple (sync : Nat → PairingRec → Except PyErr Bool) :
    Nat → Nat → List (Nat × LStr) → List PairingRec → Nat × List (Nat × LStr)
  | _, s, f, [] => (s, f)
  | i, s, f, p :: rest =>
    match pairingStepSimple sync i p with
    | none => goSimple sync (i + 1) (s + 1) f rest
    | some d => goSimple sync (i + 1) s (f ++ [(i, d)]) rest

/-- chess_simple.py:988-1048 `download_games` batch loop and report. -/
def download_games_simple (sync : Nat → PairingRec → Except PyErr Bool)
    (pairings : List PairingRec) : Report :=
  { total := pairings.length,
    success := (goSimple sync 1 0 [] pairings).1,
    failed := (goSimple sync 1 0 [] pairings).2 }

/-- 1-based enumeration of the pairings, in input order. -/
def enumFromN {α : Type} : Nat → List α → List (Nat × α)
  | _, [] => []
  | i, a :: as => (i, a) :: enumFromN (i + 1) as

/-- The expected outcome entry of one pairing under teacher_gui's loop
(meaningful when `sync` cannot raise). -/
def pairingOutcomeGui (sync : Nat → PairingRec → Except PyErr (Bool × LStr))
    (ip : Nat × PairingRec) : Option (Nat × LStr) :=
  match pairingStepGui sync ip.1 ip.2 with
  | .ok none => none
  | .ok (some d) => some (ip.1, d)
  | .error _ => none

/-- The expected outcome entry of one pairing under chess_simple's loop. -/
def pairingOutcomeSimple (sync : Nat → PairingRec → Except PyErr Bool)
    (ip : Nat × PairingRec) : Option (Nat × LStr) :=
  (pairingStepSimple sync ip.1 ip.2).map (fun d => (ip.1, d))

/-! Concrete fixtures used by the witnesses and counterexamples. -/

/-- An environment whose archive-index endpoint answers 200 with a body
that is not JSON, so `resp.json()` raises inside `get_player_archives`. -/
def badEnvC2 : SyncEnv :=
  { netArch := fun _ => .resp 200 .notJson,
    netGames := fun _ => .resp 200 .notJson,
    writeOk := fun _ => true,
    now := 0 }

/-- teacher_gui's per-pairing body wired to `badEnvC2`. -/
def syncGuiC2 (_ : Nat) (p : PairingRec) : Except PyErr (Bool × LStr) :=
  (download_pairing_games badEnvC2 [] (p.white_username.getD []) (p.black_username.getD [])).map
    (fun r => r.1)

/-- The same failing body, viewed as chess_simple's per-pairing try-block. -/
def syncSimpleC2 (_ : Nat) (p : PairingRec) : Except PyErr Bool :=
  (download_pairing_games badEnvC2 [] (p.white_username.getD []) (p.black_username.getD [])).map
    (fun r => r.1.1)

/-- A per-pairing body that always reports a plain (caught) failure. -/
def syncOkW (_ : Nat) (_ : PairingRec) : Except PyErr (Bool × LStr) := .ok (false, dlFailMsg)

/-- A fully resolved pairing. -/
def pairAB : PairingRec :=
  { white := "Alice".toList, black := "Bob".toList,
    white_username := some ("alice".toList), black_username := some ("bob".toList) }

/-- Roster where the key `" Bob"` carries surrounding whitespace and is
shadowed by `"Bobby"` at tier 3. -/
def cexRoster1 : List (LStr × LStr) :=
  [("Bobby".toList, "u1".toList), (" Bob".toList, "u2".toList)]

/-- Roster with an empty-string key. -/
def cexRoster2 : List (LStr × LStr) := [(([] : LStr), "u3".toList)]

/-- Roster for the tier-7 containment scenarios. -/
def cexS3 : List (LStr × LStr) := [("ab.cd".toList, "u1".toList)]

/-- Roster for the tier-7 underscore scenario. -/
def cexS4 : List (LStr × LStr) := [("ab".toList, "u2".toList)]

/-- A matching game dated exactly at the retention cutoff (see the
recency witness: its `end_time` is the cutoff used there). -/
def gBoundary : Game :=
  { white := "alice".toList, black := "bob".toList,
    end_time := some (.num 100), finish_time := none, start_time := none,
    last_activity := none, pgn := some ("pgn".toList) }

/-- The same game dated one day before the cutoff. -/
def gOlder : Game :=
  { white := "alice".toList, black := "bob".toList,
    end_time := some (.num (-86300)), finish_time := none, start_time := none,
    last_activity := none, pgn := some ("pgn".toList) }

/-- A game with the colors swapped relative to the pairing (alice, bob). -/
def gSwap : Game :=
  { white := "bob".toList, black := "alice".toList,
    end_time := none, finish_time := none, start_time := none,
    last_activity := none, pgn := some ("pgn".toList) }

/-- A matching game whose only timestamp field holds an unrecognized
string, so no completion time can be parsed. -/
def gUnparsable : Game :=
  { white := "alice".toList, black := "bob".toList,
    end_time := some (.str ("soon".toList)), finish_time := none, start_time := none,
    last_activity := none, pgn := some ("pgn".toList) }

/-- A plain game payload used by the cache counterexample. -/
def gC5 : Game :=
  { white := "x".toList, black := "y".toList,
    end_time := none, finish_time := none, start_time := none,
    last_activity := none, pgn := some ("p".toList) }

/-! Helper lemmas. -/

theorem orO_none {α : Type} (b : Option α) : orO none b = b := rfl

theorem orO_some {α : Type} (x : α) (b : Option α) : orO (some x) b = some x := rfl

theorem pyLower_nil_of_nil (x : LStr) (h : x = []) : pyLower x = [] := by
  simp [pyLower, h]

/-- Python `a or b` returns one of its operands. -/
theorem pyOrV_cases (a b : Option PyVal) : pyOrV a b = a ∨ pyOrV a b = b := by
  unfold pyOrV
  split
  · exact Or.inl rfl
  · exact Or.inr rfl

/-- The boolean two-element-set test is exactly `Finset` equality. -/
theorem setPairEq_iff {α : Type} [DecidableEq α] (x y c d : α) :
    setPairEq x y c d = true ↔ ({x, y} : Finset α) = {c, d} := by
  unfold setPairEq
  rw [decide_eq_true_eq]
  constructor
  · rintro ⟨hx, hy, hc, hd⟩
    ext z
    simp only [Finset.mem_insert, Finset.mem_singleton]
    constructor
    · rintro (rfl | rfl)
      · exact hx
      · exact hy
    · rintro (rfl | rfl)
      · exact hc
      · exact hd
  · intro h
    have hm := Finset.ext_iff.mp h
    simp only [Finset.mem_insert, Finset.mem_singleton] at hm
    exact ⟨(hm x).mp (Or.inl rfl), (hm y).mp (Or.inr rfl),
      (hm c).mpr (Or.inl rfl), (hm d).mpr (Or.inr rfl)⟩

/-- Claim C1: the Pairing Extractor on the raw line "1. Alice vs Bob"
actually yields ("Alice", "vs Bob") in both files — the first-priority
pattern `[vs对战VS]` is a one-character class and never matches the
two-letter marker "vs", so the line falls through to the whitespace
fallback; "Li:lisi99" yields ("Li", "lisi99") as claimed, and a blank
line yields no pairing. -/
theorem pairing_extractor_eval :
    matchWithTail (tailSep clsVs) ("Alice vs Bob".toList) = none ∧
    (parse_pairing_line_gui [] ("1. Alice vs Bob".toList)).map (fun p => (p.white, p.black)) =
      some ("Alice".toList, "vs Bob".toList) ∧
    (parse_pairing_line_simple [] ("1. Alice vs Bob".toList)).map (fun p => (p.white, p.black)) =
      some ("Alice".toList, "vs Bob".toList) ∧
    (parse_pairing_line_gui [] ("Li:lisi99".toList)).map (fun p => (p.white, p.black)) =
      some ("Li".toList, "lisi99".toList) ∧
    (parse_pairing_line_simple [] ("Li:lisi99".toList)).map (fun p => (p.white, p.black)) =
      some ("Li".toList, "lisi99".toList) ∧
    parse_pairing_line_gui [] ("  ".toList) = none ∧
    parse_pairing_line_simple [] ("  ".toList) = none := by
  refine ⟨rfl, rfl, rfl, rfl, rfl, rfl, rfl⟩

/-- Claim C9: a pairing in which either username is empty after
whitespace sanitization is rejected immediately with the
invalid-username detail, with no network request issued and the archive
cache untouched. -/
theorem invalid_username_rejected :
    ∀ (env : SyncEnv) (cache : Cache) (wU bU : LStr),
    sanitize_username wU = [] ∨ sanitize_username bU = [] →
    download_pairing_games env cache wU bU = .ok ((false, invalidUserMsg), cache, []) := by
  intro env cache wU bU h
  rcases h with h | h <;> simp [download_pairing_games, pyLower, h]

/-- Witness for C9: a whitespace-only white username is rejected with no
network calls. -/
theorem invalid_username_rejected_witness :
    download_pairing_games badEnvC2 [] (" ".toList) ("bob".toList) =
      .ok ((false, invalidUserMsg), [], []) :=
  invalid_username_rejected badEnvC2 [] (" ".toList) ("bob".toList) (Or.inl rfl)

/-- Claim C6: for a matched game with a parsable timestamp, the recency
filter keeps the game when its timestamp equals the cutoff
(now - 14 days) exactly and excludes it when it is one day older: an
inclusive lower bound. -/
theorem recency_filter_boundary :
    ∀ (now : Int) (w b : LStr) (g : Game) (t : Int),
    participantsMatch g w b = true →
    extract_game_time g = some t →
    ((t = now - recent_days * 86400 →
        keepGame w b (now - recent_days * 86400) g = true) ∧
     (t = now - recent_days * 86400 - 86400 →
        keepGame w b (now - recent_days * 86400) g = false)) := by
  intro now w b g t hm he
  constructor
  · intro ht
    simp only [keepGame, hm, he, ht, Bool.true_and]
    simp
  · intro ht
    simp only [keepGame, hm, he, ht, Bool.true_and]
    simp only [decide_eq_false_iff_not, not_not]
    omega

/-- Witness for C6 at cutoff 100 (now = 1209700): the game dated 100 is
kept, the game dated 100 - 86400 is dropped. -/
theorem recency_filter_boundary_witness :
    keepGame ("alice".toList) ("bob".toList) (1209700 - recent_days * 86400) gBoundary = true ∧
    keepGame ("alice".toList) ("bob".toList) (1209700 - recent_days * 86400) gOlder = false :=
  ⟨(recency_filter_boundary 1209700 ("alice".toList) ("bob".toList) gBoundary 100
      (by decide) (by decide)).1 (by decide),
   (recency_filter_boundary 1209700 ("alice".toList) ("bob".toList) gOlder (-86300)
      (by decide) (by decide)).2 (by decide)⟩

/-- Claim C8: game-to-pairing matching compares the unordered set of
the game's (lower-cased) participants with the pairing's resolved
usernames, hence is color-symmetric: a game with white = B, black = A
matches a pairing resolved as (A, B). -/
theorem game_match_color_symmetric :
    ∀ (g : Game) (a b : LStr),
    (participantsMatch g a b = true ↔
      ({pyLower g.white, pyLower g.black} : Finset LStr) = {a, b}) ∧
    (g.white = b → g.black = a → pyLower a = a → pyLower b = b →
      participantsMatch g a b = true) := by
  intro g a b
  constructor
  · exact setPairEq_iff _ _ _ _
  · intro hw hb ha hbl
    rw [participantsMatch, hw, hb, ha, hbl]
    simp [setPairEq]

/-- Witness for C8: the swapped-colors game matches the pairing. -/
theorem game_match_color_symmetric_witness :
    participantsMatch gSwap ("alice".toList) ("bob".toList) = true :=
  (game_match_color_symmetric gSwap ("alice".toList) ("bob".toList)).2
    (by decide) (by decide) (by decide) (by decide)

/-- Claim C10: a game whose four timestamp fields hold no parsable
completion time is never excluded by the recency filter: if its
participants match, it is kept whatever the cutoff. -/
theorem unparsable_timestamp_kept :
    ∀ (w b : LStr) (cutoff : Int) (g : Game),
    (∀ v, g.end_time = some v → parsableTs v = false) →
    (∀ v, g.finish_time = some v → parsableTs v = false) →
    (∀ v, g.start_time = some v → parsableTs v = false) →
    (∀ v, g.last_activity = some v → parsableTs v = false) →
    participantsMatch g w b = true →
    keepGame w b cutoff g = true := by
  intro w b cutoff g h1 h2 h3 h4 hm
  have hchain :
      pyOrV (pyOrV (pyOrV g.end_time g.finish_time) g.start_time) g.last_activity = g.end_time ∨
      pyOrV (pyOrV (pyOrV g.end_time g.finish_time) g.start_time) g.last_activity = g.finish_time ∨
      pyOrV (pyOrV (pyOrV g.end_time g.finish_time) g.start_time) g.last_activity = g.start_time ∨
      pyOrV (pyOrV (pyOrV g.end_time g.finish_time) g.start_time) g.last_activity = g.last_activity := by
    rcases pyOrV_cases (pyOrV (pyOrV g.end_time g.finish_time) g.start_time) g.last_activity with
      h | h
    · rw [h]
      rcases pyOrV_cases (pyOrV g.end_time g.finish_time) g.start_time with h' | h'
      · rw [h']
        rcases pyOrV_cases g.end_time g.finish_time with h'' | h''
        · exact Or.inl h''
        · exact Or.inr (Or.inl h'')
      · exact Or.inr (Or.inr (Or.inl h'))
    · exact Or.inr (Or.inr (Or.inr h))
  have hfield : ∀ (fld : Option PyVal), (∀ v, fld = some v → parsableTs v = false) →
      (match fld with
       | some (.num n) => if tsMin ≤ n && n ≤ tsMax then some n else none
       | some (.str s) => strptimeIso s
       | none => (none : Option Int)) = none := by
    intro fld hf
    rcases fld with _ | v
    · rfl
    · rcases v with n | s
      · have := hf (.num n) rfl
        simp only [parsableTs] at this
        simp [this]
      · have := hf (.str s) rfl
        simp only [parsableTs] at this
        rcases hst : strptimeIso s with _ | t
        · exact hst
        · rw [hst] at this
          simp at this
  have hts : extract_game_time g = none := by
    rw [extract_game_time]
    rcases hchain with h | h | h | h <;> rw [h]
    · exact hfield _ h1
    · exact hfield _ h2
    · exact hfield _ h3
    · exact hfield _ h4
  simp [keepGame, hm, hts]

/-- Witness for C10: a much-older game with only the unrecognized string
"soon" in `end_time` is kept. -/
theorem unparsable_timestamp_kept_witness :
    keepGame ("alice".toList) ("bob".toList) 999999999999 gUnparsable = true :=
  unparsable_timestamp_kept ("alice".toList) ("bob".toList) 999999999999 gUnparsable
    (fun v hv => by cases hv; decide)
    (fun v hv => by cases hv)
    (fun v hv => by cases hv)
    (fun v hv => by cases hv)
    (by decide)

/-- Counterexample for C4: in `get_player_archives` (the archive-index
request of the claim) a network timeout is caught by the generic
`requests.RequestException` handler, so its reason is byte-identical to
the generic transport-error reason — not a distinct `timeout` reason. -/
theorem list_archives_timeout_cex :
    get_player_archives (.timeout ("t".toList)) ("alice".toList) =
      get_player_archives (.reqErr ("t".toList)) ("alice".toList) ∧
    get_player_archives (.timeout ("t".toList)) ("alice".toList) =
      .ok (([], netErrPrefix ++ "t".toList), true) ∧
    netErrPrefix ++ "t".toList ≠ timeoutMsg := by
  refine ⟨rfl, rfl, by decide⟩

/-- Claim C4 (amended): it is `get_archive_games` (fetch_archive) that
returns the distinct timeout reason, different from the transport-error
and HTTP-status reasons; `get_player_archives` (list_archives) folds a
timeout into the generic network-error reason. -/
theorem fetch_archive_timeout_distinct :
    ∀ (cache : Cache) (url msg : LStr), lookupKey url cache = none →
    get_archive_games cache (.timeout msg) url = .ok (([], timeoutMsg), cache, true) ∧
    (∀ m, timeoutMsg ≠ netErrPrefix ++ m) ∧
    (∀ st, timeoutMsg ≠ httpMsg st) ∧
    timeoutMsg ≠ forbiddenMsg ∧
    (∀ m u, u ≠ [] →
      get_player_archives (.timeout m) u = .ok (([], netErrPrefix ++ m), true)) := by
  intro cache url msg h
  refine ⟨?_, ?_, ?_, ?_, ?_⟩
  · simp [get_archive_games, h]
  · intro m hEq
    rw [show timeoutMsg = ['请', '求', '超', '时'] from rfl,
      show netErrPrefix = ['网', '络', '错', '误', ':', ' '] from rfl] at hEq
    simp at hEq
  · intro st hEq
    rw [show timeoutMsg = ['请', '求', '超', '时'] from rfl,
      show httpMsg st = 'H' :: ('T' :: ('T' :: ('P' :: (' ' :: natToChars st)))) from rfl] at hEq
    simp at hEq
  · decide
  · intro m u hu
    simp [get_player_archives, hu]

/-- Witness for C4's amended claim on an empty cache. -/
theorem fetch_archive_timeout_distinct_witness :
    get_archive_games [] (.timeout ("t".toList)) ("u".toList) =
      .ok (([], timeoutMsg), [], true) :=
  (fetch_archive_timeout_distinct [] ("u".toList) ("t".toList) rfl).1

/-- Counterexample for C5: a failed first fetch (HTTP 404) is not
cached, so a second fetch of the same reference issues a second network
request (both calls report a network request), and a second call may
even return different results (a subsequent 200 here). -/
theorem archive_cache_two_requests_cex :
    get_archive_games [] (.resp 404 (.dict none)) ("u".toList) =
      .ok (([], httpMsg 404), [], true) ∧
    get_archive_games [] (.resp 404 (.dict none)) ("u".toList) =
      .ok (([], httpMsg 404), [], true) ∧
    get_archive_games [] (.resp 200 (.dict (some (.ok [gC5])))) ("u".toList) =
      .ok (([gC5], []), [("u".toList, [gC5])], true) := by
  refine ⟨rfl, rfl, rfl⟩

/-- Claim C5 (amended): a cache hit performs no network request and
returns the cached games with no failure reason; when the first call
for a reference succeeds (empty failure reason), the reference is
cached, so a second call — whatever the network would answer — performs
no request and returns results identical to the first: at most one
request in total for a successful reference. -/
theorem archive_cache_behavior :
    (∀ (cache : Cache) (url : LStr) (gs : List Game) (net : Fetch GamesBody),
      lookupKey url cache = some gs →
      get_archive_games cache net url = .ok ((gs, []), cache, false)) ∧
    (∀ (cache : Cache) (url : LStr) (net net2 : Fetch GamesBody) (gs : List Game)
        (cache2 : Cache),
      lookupKey url cache = none →
      get_archive_games cache net url = .ok ((gs, []), cache2, true) →
      get_archive_games cache2 net2 url = .ok ((gs, []), cache2, false)) := by
  constructor
  · intro cache url gs net h
    simp [get_archive_games, h]
  · intro cache url net net2 gs cache2 h h2
    have hc : lookupKey url cache2 = some gs := by
      cases net with
      | timeout m => simp [get_archive_games, h, timeoutMsg] at h2
      | reqErr m => simp [get_archive_games, h, netErrPrefix] at h2
      | resp status body =>
        by_cases hs : status = 200
        · subst hs
          cases body with
          | notJson => simp [get_archive_games, h] at h2
          | nonDict =>
            simp [get_archive_games, h] at h2
            obtain ⟨hgs, hcache⟩ := h2
            rw [← hcache, ← hgs]
            simp [lookupKey]
          | dict o =>
            rcases o with _ | e
            · simp [get_archive_games, h] at h2
              obtain ⟨hgs, hcache⟩ := h2
              rw [← hcache, ← hgs]
              simp [lookupKey]
            · cases e with
              | error u =>
                simp [get_archive_games, h] at h2
                exact absurd h2.1.2 (by decide)
              | ok gs0 =>
                simp [get_archive_games, h] at h2
                obtain ⟨hgs, hcache⟩ := h2
                rw [← hcache, hgs]
                simp [lookupKey]
        · by_cases h403 : status = 403
          · subst h403
            simp [get_archive_games, h, forbiddenMsg] at h2
          · simp [get_archive_games, h, hs, h403, httpMsg, natToChars] at h2
    simp [get_archive_games, hc]

/-- Witness for C5's amended claim: after a successful first fetch, the
second call is a cache hit with identical results and no request. -/
theorem archive_cache_behavior_witness :
    get_archive_games [("u".toList, [gC5])] (.timeout []) ("u".toList) =
      .ok (([gC5], []), [("u".toList, [gC5])], false) :=
  archive_cache_behavior.2 [] ("u".toList) (.resp 200 (.dict (some (.ok [gC5]))))
    (.timeout []) [gC5] [("u".toList, [gC5])] rfl rfl

/-- Counterexample for C7: for the roster entry (" Bob", "u2") the
resolvers strip the token before the tier-1 lookup, so tier 1 misses
and tier 3 returns the other entry's username; for an empty-string key
the empty-token guard returns not-found. -/
theorem exact_roster_resolution_cex :
    lookupKey (" Bob".toList) cexRoster1 = some ("u2".toList) ∧
    find_username_gui cexRoster1 (" Bob".toList) = some ("u1".toList) ∧
    find_username_simple cexRoster1 (" Bob".toList) = some ("u1".toList) ∧
    lookupKey ([] : LStr) cexRoster2 = some ("u3".toList) ∧
    find_username_gui cexRoster2 ([] : LStr) = none ∧
    find_username_simple cexRoster2 ([] : LStr) = none := by
  refine ⟨rfl, by decide, by decide, rfl, rfl, rfl⟩

/-- Claim C7 (amended): for every roster entry whose name is non-empty
and carries no surrounding whitespace, both resolvers return exactly
that entry's username via the tier-1 exact lookup. -/
theorem exact_roster_resolution :
    ∀ (students : List (LStr × LStr)) (name u : LStr),
    name ≠ [] → pyStrip name = name → lookupKey name students = some u →
    find_username_gui students name = some u ∧
    find_username_simple students name = some u := by
  intro students name u h1 h2 h3
  have hs : students ≠ [] := by
    intro he
    rw [he] at h3
    simp [lookupKey] at h3
  constructor
  · simp [find_username_gui, h1, h2, tiers1to6, tier1, h3, orO]
  · simp [find_username_simple, h1, hs, h2, tiers1to6, tier1, h3, orO]

/-- Witness for C7's amended claim. -/
theorem exact_roster_resolution_witness :
    find_username_gui [("Al".toList, "u9".toList)] ("Al".toList) = some ("u9".toList) ∧
    find_username_simple [("Al".toList, "u9".toList)] ("Al".toList) = some ("u9".toList) :=
  exact_roster_resolution [("Al".toList, "u9".toList)] ("Al".toList) ("u9".toList)
    (by decide) rfl rfl

/-- Counterexample for C3: the token "ab-c" against the roster entry
"ab.cd" defeats tiers 1-6 and satisfies the spec's tier-7 rule
(containment of the normalized strings with length difference 1), yet
teacher_gui's resolver returns not-found — its tier 7 has no
containment clause (chess_simple's does resolve it).  The token "a_b"
against "ab" satisfies the spec's rule under a strict "alphanumeric"
reading, but both resolvers keep the underscore (`\w`) and return
not-found. -/
theorem tier7_containment_cex :
    tiers1to6 cexS3 (pyStrip ("ab-c".toList)) = none ∧
    specTier7Match ("ab-c".toList) ("ab.cd".toList) = true ∧
    find_username_gui cexS3 ("ab-c".toList) = none ∧
    find_username_simple cexS3 ("ab-c".toList) = some ("u1".toList) ∧
    tiers1to6 cexS4 (pyStrip ("a_b".toList)) = none ∧
    specTier7Match ("a_b".toList) ("ab".toList) = true ∧
    find_username_gui cexS4 ("a_b".toList) = none ∧
    find_username_simple cexS4 ("a_b".toList) = none := by
  refine ⟨by decide, by decide, by decide, by decide, by decide, by decide, by decide, by decide⟩

/-- Claim C3 (amended): on every token on which tiers 1-6 fail,
chess_simple's resolver returns the first roster entry matching the
stated tier-7 rule (`fuzzyRule`: normalized equality, or containment
with absolute length difference at most 2) with "non-alphanumeric" read
as "non-word characters" (underscores kept); teacher_gui's resolver
instead matches tier 7 only on equality of the normalized strings. -/
theorem tier7_rule :
    ∀ (students : List (LStr × LStr)) (name : LStr),
    name ≠ [] → students ≠ [] →
    tiers1to6 students (pyStrip name) = none →
    find_username_simple students name =
      firstMatch
        (fun rn => fuzzyRule (cleanW (pyLower (pyStrip name))) (cleanW (pyLower rn)))
        students ∧
    find_username_gui students name =
      firstMatch
        (fun rn =>
          decide (cleanW (pyLower (pyStrip name)) ≠ []) &&
            decide (cleanW (pyLower (pyStrip name)) = cleanW (pyLower rn)))
        students := by
  intro students name h1 h2 h3
  constructor
  · simp [find_username_simple, h1, h2, h3, orO, tier7simple]
  · simp [find_username_gui, h1, h3, orO, tier7gui]

/-- Counting outcomes: successes plus failure entries cover the list. -/
theorem outcome_count {γ : Type} (f : γ → Option (Nat × LStr)) (l : List γ) :
    l.countP (fun a => (f a).isNone) + (l.filterMap f).length = l.length := by
  induction l with
  | nil => simp
  | cons a l ih =>
    rcases hf : f a with _ | v <;>
      simp [List.countP_cons, List.filterMap_cons, hf] <;> omega

/-- Closed form of chess_simple's batch fold: every pairing contributes
exactly one outcome, in input order, whatever `sync` does. -/
theorem goSimple_eq (sync : Nat → PairingRec → Except PyErr Bool) :
    ∀ (ps : List PairingRec) (i s : Nat) (f : List (Nat × LStr)),
    goSimple sync i s f ps =
      (s + (enumFromN i ps).countP (fun ip => (pairingOutcomeSimple sync ip).isNone),
       f ++ (enumFromN i ps).filterMap (pairingOutcomeSimple sync)) := by
  intro ps
  induction ps with
  | nil => intro i s f; simp [goSimple, enumFromN]
  | cons p rest ih =>
    intro i s f
    rcases hstep : pairingStepSimple sync i p with _ | d
    · simp [goSimple, hstep, ih, enumFromN, pairingOutcomeSimple, List.countP_cons,
        List.filterMap_cons]
      omega
    · simp [goSimple, hstep, ih, enumFromN, pairingOutcomeSimple, List.countP_cons,
        List.filterMap_cons]

/-- Closed form of teacher_gui's batch fold, valid when `sync` cannot
raise. -/
theorem goGui_eq (sync : Nat → PairingRec → Except PyErr (Bool × LStr))
    (herr : ∀ i p e, sync i p ≠ .error e) :
    ∀ (ps : List PairingRec) (i s : Nat) (f : List (Nat × LStr)),
    goGui sync i s f ps =
      .ok (s + (enumFromN i ps).countP (fun ip => (pairingOutcomeGui sync ip).isNone),
        f ++ (enumFromN i ps).filterMap (pairingOutcomeGui sync)) := by
  intro ps
  induction ps with
  | nil => intro i s f; simp [goGui, enumFromN]
  | cons p rest ih =>
    intro i s f
    have hnoerr : ∀ e, pairingStepGui sync i p ≠ .error e := by
      intro e hstep
      rw [pairingStepGui] at hstep
      rcases hw : p.white_username with _ | wu <;> rw [hw] at hstep
      · simp at hstep
      · rcases hb : p.black_username with _ | bu <;> rw [hb] at hstep
        · simp at hstep
        · rcases hsy : sync i p with e2 | r
          · exact herr i p e2 hsy
          · rw [hsy] at hstep
            rcases r with ⟨ok, d⟩
            cases ok <;> simp at hstep
    rcases hstep : pairingStepGui sync i p with e | o
    · exact absurd hstep (hnoerr e)
    · rcases o with _ | d
      · simp [goGui, hstep, ih, enumFromN, pairingOutcomeGui, List.countP_cons,
          List.filterMap_cons]
        omega
      · simp [goGui, hstep, ih, enumFromN, pairingOutcomeGui, List.countP_cons,
          List.filterMap_cons]

/-- Counterexample for C2: with an archive-index endpoint answering 200
with a non-JSON body, `resp.json()` raises; teacher_gui's batch loop has
no try/except, so the very first pairing's fault aborts the whole batch
and no report is produced, while chess_simple's loop (which wraps its
body in try/except) still produces one outcome entry per pairing. -/
theorem batch_abort_on_fault_cex :
    download_games_gui syncGuiC2 [pairAB, pairAB, pairAB] = .error .jsonError ∧
    download_games_simple syncSimpleC2 [pairAB, pairAB, pairAB] =
      { total := 3, success := 0,
        failed := [(1, errMsg .jsonError), (2, errMsg .jsonError), (3, errMsg .jsonError)] } := by
  refine ⟨rfl, rfl⟩

/-- Claim C2 (amended): chess_simple's batch loop attempts every pairing
in input order and produces exactly one outcome entry per pairing (a
success count plus ordered failure entries, with successes and failures
summing to the total), whatever faults the per-pairing body signals or
raises; teacher_gui's loop guarantees the same only when the body never
raises — a raised fault there aborts the remaining batch. -/
theorem batch_resilience :
    (∀ (sync : Nat → PairingRec → Except PyErr Bool) (ps : List PairingRec),
      download_games_simple sync ps =
        { total := ps.length,
          success := (enumFromN 1 ps).countP (fun ip => (pairingOutcomeSimple sync ip).isNone),
          failed := (enumFromN 1 ps).filterMap (pairingOutcomeSimple sync) } ∧
      (download_games_simple sync ps).success +
          (download_games_simple sync ps).failed.length = ps.length) ∧
    (∀ (sync : Nat → PairingRec → Except PyErr (Bool × LStr)) (ps : List PairingRec),
      (∀ i p e, sync i p ≠ .error e) →
      download_games_gui sync ps =
        .ok { total := ps.length,
              success := (enumFromN 1 ps).countP (fun ip => (pairingOutcomeGui sync ip).isNone),
              failed := (enumFromN 1 ps).filterMap (pairingOutcomeGui sync) }) := by
  have hlen : ∀ (ps : List PairingRec) (i : Nat), (enumFromN i ps).length = ps.length := by
    intro ps
    induction ps with
    | nil => intro i; rfl
    | cons p rest ih => intro i; simp [enumFromN, ih]
  constructor
  · intro sync ps
    have hform : download_games_simple sync ps =
        { total := ps.length,
          success := (enumFromN 1 ps).countP (fun ip => (pairingOutcomeSimple sync ip).isNone),
          failed := (enumFromN 1 ps).filterMap (pairingOutcomeSimple sync) } := by
      rw [download_games_simple, goSimple_eq sync ps 1 0 []]
      simp
    refine ⟨hform, ?_⟩
    rw [hform]
    simp only
    rw [outcome_count (pairingOutcomeSimple sync) (enumFromN 1 ps), hlen]
  · intro sync ps herr
    rw [download_games_gui, goGui_eq sync herr ps 1 0 []]
    simp

/-- Witness for C2's amended claim: a batch whose body always reports a
caught failure yields one entry per pairing under teacher_gui's loop. -/
theorem batch_resilience_witness :
    download_games_gui syncOkW [pairAB] =
      .ok { total := [pairAB].length,
            success := (enumFromN 1 [pairAB]).countP
              (fun ip => (pairingOutcomeGui syncOkW ip).isNone),
            failed := (enumFromN 1 [pairAB]).filterMap (pairingOutcomeGui syncOkW) } :=
  batch_resilience.2 syncOkW [pairAB] (fun _ _ _ h => Except.noConfusion h)

/-- Witness for C3's amended claim on the containment scenario. -/
theorem tier7_rule_witness :
    find_username_simple cexS3 ("ab-c".toList) =
      firstMatch
        (fun rn => fuzzyRule (cleanW (pyLower (pyStrip ("ab-c".toList)))) (cleanW (pyLower rn)))
        cexS3 ∧
    find_username_gui cexS3 ("ab-c".toList) =
      firstMatch
        (fun rn =>
          decide (cleanW (pyLower (pyStrip ("ab-c".toList))) ≠ []) &&
            decide (cleanW (pyLower (pyStrip ("ab-c".toList))) = cleanW (pyLower rn)))
        cexS3 :=
  tier7_rule cexS3 ("ab-c".toList) (by decide) (by decide) (by decide)

end ChessDL

